import Mathlib

/-!
Verification of the GeoInfoOverlay metadata-extraction and caption-layout
pipeline (`overlay.py`) against its natural-language specification.

The Python program is shallowly embedded:
* Python exceptions are modelled by `Except PyError`; a function that the
  source wraps in `try/except` is modelled by matching on the `Except` value.
* Python dicts are association lists; `d[k]` is `subscript` (raising
  `KeyError`) and `d.get(k, v)` is `alookup` with `Option.getD`.
* EXIF byte values are modelled by their decoded text (decoding of a present
  value is assumed to succeed); calling `.decode` on a missing value (`None`)
  raises `AttributeError`, which is modelled faithfully.
* Python floats are modelled exactly by `ℚ`; pixel metrics by `Int`.
* The font-metrics collaborator (`font.getbbox`) is an abstract measure
  `Meas`; the geocoding collaborator is modelled by its outcome `GeoOutcome`.
* `str.split()` / `str.strip()` whitespace is modelled by the space character.
-/

/-- Python exception classes that the embedded fragments can raise. -/
inductive PyError where
  | attributeError
  | keyError
  | zeroDivisionError
  | typeError
  | valueError
  | indexError
deriving DecidableEq

/- ## Python string primitives, embedded over `List Char` -/

/-- Auxiliary for `str.split()` restricted to the space character:
words are maximal runs of non-space characters; `cur` is the current
word being accumulated, in reverse. -/
def wordsAux : List Char → List Char → List String
  | [], cur => if cur.isEmpty then [] else [String.mk cur.reverse]
  | c :: cs, cur =>
    if c = ' ' then
      (if cur.isEmpty then wordsAux cs [] else String.mk cur.reverse :: wordsAux cs [])
    else wordsAux cs (c :: cur)

/-- `text.split()` (whitespace modelled by the space character). -/
def pyWords (s : String) : List String := wordsAux s.toList []

/-- Auxiliary for `text.split(newline)`: empty segments are kept. -/
def nlAux : List Char → List Char → List String
  | [], cur => [String.mk cur.reverse]
  | c :: cs, cur =>
    if c = '\n' then String.mk cur.reverse :: nlAux cs [] else nlAux cs (c :: cur)

/-- `text.split` at the newline character, as Python does with an explicit
separator: empty segments are kept, the empty string yields one segment. -/
def splitNl (s : String) : List String := nlAux s.toList []

/-- Auxiliary for `line.split(colon, 1)`. -/
def colonSplitAux : List Char → List Char → String × String
  | [], seen => (String.mk seen.reverse, "")
  | c :: cs, seen =>
    if c = ':' then (String.mk seen.reverse, String.mk cs)
    else colonSplitAux cs (c :: seen)

/-- `line.split(colon, 1)`: the part before the first colon and the part
after it.  When the line has no colon the second component is empty; the
source only calls this under the guard `colon in line`. -/
def splitColon1 (s : String) : String × String := colonSplitAux s.toList []

/-- The guard `colon in line`. -/
def containsColon (s : String) : Bool := s.toList.any (fun c => c = ':')

/-- Characters remaining after `str.strip()` removes spaces from the
front (space modelled). -/
def dropSp : List Char → List Char
  | [] => []
  | c :: cs => if c = ' ' then dropSp cs else c :: cs

/-- `s.strip()` on the character list: leading and trailing spaces removed. -/
def stripChars (l : List Char) : List Char := (dropSp (dropSp l).reverse).reverse

/-- `s.strip()` (whitespace modelled by the space character). -/
def stripSp (s : String) : String := String.mk (stripChars s.toList)

/-- `sep.join(parts)` for a one-character-at-a-time model: here `' '.join`. -/
def joinSp : List String → String
  | [] => ""
  | [w] => w
  | w :: x :: ws => w ++ " " ++ joinSp (x :: ws)

/-- `", ".join(parts)`. -/
def joinCommaSp : List String → String
  | [] => ""
  | [w] => w
  | w :: x :: ws => w ++ ", " ++ joinCommaSp (x :: ws)

/-- `str.lower()`. -/
def pyLower (s : String) : String := String.mk (s.toList.map Char.toLower)

/-- `str.endswith(suffix)`. -/
def pyEndsWith (s suffix : String) : Bool := suffix.toList.isSuffixOf s.toList

/- ## Python dict primitives over association lists -/

/-- Association-list lookup, modelling `dict.get(key)` returning `None`
when the key is absent. -/
def alookup {α : Type} : List (Nat × α) → Nat → Option α
  | [], _ => none
  | (k, v) :: rest, key => if k = key then some v else alookup rest key

/-- String-keyed lookup, modelling `key in d` / `d[key]` for the address
dict. -/
def slookup : List (String × String) → String → Option String
  | [], _ => none
  | (k, v) :: rest, key => if k = key then some v else slookup rest key

/-- `d[key]`: raises `KeyError` when the key is absent. -/
def subscript {α : Type} (d : List (Nat × α)) (k : Nat) : Except PyError α :=
  match alookup d k with
  | some v => Except.ok v
  | none => Except.error PyError.keyError

/- ## EXIF data model -/

/-- A value stored in the GPS IFD: either a reference bytes value such as
`b'N'` (modelled by its text) or a tuple of `(numerator, denominator)`
rational pairs. -/
inductive GPSVal where
  | ref (s : String)
  | rats (l : List (Int × Int))
deriving DecidableEq

/-- The parsed EXIF dictionary returned by the metadata codec
(`piexif.load`): only the IFDs the program reads are modelled.  Byte
values are modelled by their decoded text. -/
structure ExifDict where
  exif : List (Nat × String)
  gps : List (Nat × GPSVal)
deriving DecidableEq

/-- `getattr(piexif.ExifIFD, tag, None)`: the `piexif.ExifIFD` constants
for the three probed tag names.  `piexif.ExifIFD` has `DateTimeOriginal`
(36867) and `DateTimeDigitized` (36868) but no `DateTime` attribute (that
tag, 306, lives in `piexif.ImageIFD`), so the middle probe yields `None`. -/
def ExifIFD_getattr : String → Option Nat
  | "DateTimeOriginal" => some 36867
  | "DateTimeDigitized" => some 36868
  | _ => none

namespace GPSIFD

/-- `piexif.GPSIFD.GPSLatitudeRef` -/
def GPSLatitudeRef : Nat := 1

/-- `piexif.GPSIFD.GPSLatitude` -/
def GPSLatitude : Nat := 2

/-- `piexif.GPSIFD.GPSLongitudeRef` -/
def GPSLongitudeRef : Nat := 3

/-- `piexif.GPSIFD.GPSLongitude` -/
def GPSLongitude : Nat := 4

end GPSIFD

/- ## MetadataExtractor: `get_date` -/

/-- The loop body of `get_date`: for each tag name, look up the tag id on
`piexif.ExifIFD`; when the id is truthy, fetch the tag from the `Exif` IFD
with `dict.get` and immediately call `.decode` on the result.  The guard
`if date_time:` is commented out in the source, so a missing tag makes the
code call `.decode` on `None`, raising `AttributeError`. -/
def get_date_loop (exif_dict : ExifDict) : List String → Except PyError String
  | [] => Except.ok "Unknown Date"
  | tag :: rest =>
    match ExifIFD_getattr tag with
    | some i =>
      if i ≠ 0 then
        match alookup exif_dict.exif i with
        | some v => Except.ok v
        | none => Except.error PyError.attributeError
      else get_date_loop exif_dict rest
    | none => get_date_loop exif_dict rest

/-- `get_date(exif_dict)` from `overlay.py`. -/
def get_date (exif_dict : ExifDict) : Except PyError String :=
  get_date_loop exif_dict ["DateTimeOriginal", "DateTime", "DateTimeDigitized"]

/- ## MetadataExtractor: `get_gps_coords` -/

/-- deg + min/60 + sec/3600 with each rational evaluated exactly. -/
def degVal (d m s : Int × Int) : ℚ :=
  (d.1 : ℚ) / (d.2 : ℚ) + ((m.1 : ℚ) / (m.2 : ℚ)) / 60 + ((s.1 : ℚ) / (s.2 : ℚ)) / 3600

/-- `_convert_to_degrees(value)`: unpacking `d, m, s = value` raises
`ValueError` for a wrong arity and `TypeError` for a non-tuple value;
a zero denominator raises `ZeroDivisionError`; otherwise the exact
converted value is returned. -/
def _convert_to_degrees (value : GPSVal) : Except PyError ℚ :=
  match value with
  | GPSVal.rats (d :: m :: s :: []) =>
    if d.2 = 0 ∨ m.2 = 0 ∨ s.2 = 0 then Except.error PyError.zeroDivisionError
    else Except.ok (degVal d m s)
  | GPSVal.rats _ => Except.error PyError.valueError
  | GPSVal.ref _ => Except.error PyError.typeError

/-- The `try` block of `get_gps_coords`: latitude triple (subscript,
`KeyError` when missing), conversion, negation when
`gps_info.get(GPSLatitudeRef, b'N') != b'N'`, then the same for the
longitude with default `b'E'`. -/
def gps_try (gps_info : List (Nat × GPSVal)) : Except PyError (ℚ × ℚ) :=
  match subscript gps_info GPSIFD.GPSLatitude with
  | Except.error e => Except.error e
  | Except.ok latv =>
    match _convert_to_degrees latv with
    | Except.error e => Except.error e
    | Except.ok lat0 =>
      let lat := if (alookup gps_info GPSIFD.GPSLatitudeRef).getD (GPSVal.ref "N") ≠ GPSVal.ref "N"
        then -lat0 else lat0
      match subscript gps_info GPSIFD.GPSLongitude with
      | Except.error e => Except.error e
      | Except.ok lonv =>
        match _convert_to_degrees lonv with
        | Except.error e => Except.error e
        | Except.ok lon0 =>
          let lon := if (alookup gps_info GPSIFD.GPSLongitudeRef).getD (GPSVal.ref "E") ≠ GPSVal.ref "E"
            then -lon0 else lon0
          Except.ok (lat, lon)

/-- `get_gps_coords(exif_dict)`: an empty (falsy) GPS IFD yields `None`;
any exception inside the `try` block (`KeyError` or a conversion error)
is caught and also yields `None`. -/
def get_gps_coords (exif_dict : ExifDict) : Option (ℚ × ℚ) :=
  let gps_info := exif_dict.gps
  if gps_info.isEmpty then none
  else
    match gps_try gps_info with
    | Except.ok p => some p
    | Except.error _ => none

/- ## PlaceResolver: `reverse_geocode` -/

/-- Behaviour of the external geocoding collaborator for one call:
`geolocator.reverse` either raises `GeocoderTimedOut`, raises some other
exception, or returns a location (or `None`).  The returned location is
modelled by its `raw[address]` sub-dict, `none` standing for a raw dict
without an `address` key (whose subscript raises `KeyError`). -/
inductive GeoOutcome where
  | timeout
  | failure
  | success (location : Option (Option (List (String × String))))
deriving DecidableEq

/-- The fixed priority order of usable address fields. -/
def address_fields : List String :=
  ["road", "suburb", "city", "state_district", "state", "country"]

/-- `reverse_geocode(coords)` from `overlay.py`, with the network call
replaced by its outcome.  `GeocoderTimedOut` and every other exception
(including the `KeyError` from a raw dict without an `address` key) are
caught and yield the string "Location Unavailable"; a `None` location
yields "Unknown Location"; otherwise the present usable fields are joined
with a comma and space. -/
def reverse_geocode (outcome : GeoOutcome) : String :=
  match outcome with
  | GeoOutcome.timeout => "Location Unavailable"
  | GeoOutcome.failure => "Location Unavailable"
  | GeoOutcome.success none => "Unknown Location"
  | GeoOutcome.success (some raw_address) =>
    match raw_address with
    | none => "Location Unavailable"
    | some address =>
      joinCommaSp (address_fields.filterMap (fun part => slookup address part))

/- ## Claim C1 -/

/-- C1: the spec claims `get_date` probes `DateTimeOriginal`, `DateTime`,
`DateTimeDigitized` in priority order, returning the first present and
"Unknown Date" when none is present.  In the code the `if date_time:`
guard is commented out, so the very first probe returns unconditionally:
a present `DateTimeOriginal` is indeed returned verbatim, but when it is
absent the code raises `AttributeError` (calling `.decode` on `None`)
instead of falling through to the next tag — here `DateTimeDigitized`
is present and is still not returned. -/
theorem c1_get_date_no_fallback :
    get_date ⟨[(36868, "2020:05:05 10:00:00")], []⟩ = Except.error PyError.attributeError ∧
    get_date ⟨[(36867, "2022:01:01 10:00:00"), (36868, "2020:05:05 10:00:00")], []⟩ =
      Except.ok "2022:01:01 10:00:00" := by
  exact ⟨rfl, rfl⟩

/- ## Claim C5 -/

/-- C5: the spec claims no exception propagates out of MetadataExtractor,
its functions being total.  `get_date` is not total: on an EXIF dict whose
`Exif` IFD lacks `DateTimeOriginal` it raises `AttributeError`
(`None.decode`), so timestamp extraction is not a total function. -/
theorem c5_get_date_not_total :
    ¬ ∀ d : ExifDict, (get_date d).isOk = true := by
  intro h
  have := h ⟨[], []⟩
  simp [get_date, get_date_loop, ExifIFD_getattr, alookup, Except.isOk, Except.toBool] at this

/- ## Claim C3 -/

/-- An address dict carrying only fields outside the usable priority list. -/
def c3_no_usable_address : List (String × String) :=
  [("postcode", "90210"), ("country_code", "us")]

/-- C3 counterexample: the spec claims a successful response whose
structured address has none of the usable fields returns exactly
"Unknown Location"; the code joins zero extracted parts and returns the
empty string instead ("Unknown Location" is only returned when the
service yields no location object at all). -/
theorem c3_empty_join_counterexample :
    reverse_geocode (GeoOutcome.success (some (some c3_no_usable_address))) = "" ∧
    ("" : String) ≠ "Unknown Location" := by
  exact ⟨rfl, by decide⟩

/-- C3 amended: on a timeout and on any other transport/service error the
result is exactly "Location Unavailable"; on a successful call with no
location object it is exactly "Unknown Location"; on a successful response
whose address has none of the usable fields it is the empty string (not
"Unknown Location"); and in general the present usable fields are joined
with a comma and space in the fixed priority order. -/
theorem c3_place_resolution :
    reverse_geocode GeoOutcome.timeout = "Location Unavailable" ∧
    reverse_geocode GeoOutcome.failure = "Location Unavailable" ∧
    reverse_geocode (GeoOutcome.success none) = "Unknown Location" ∧
    (∀ address : List (String × String),
      (∀ part ∈ address_fields, slookup address part = none) →
      reverse_geocode (GeoOutcome.success (some (some address))) = "") ∧
    (∀ address : List (String × String),
      reverse_geocode (GeoOutcome.success (some (some address))) =
        joinCommaSp (address_fields.filterMap (fun part => slookup address part))) := by
  refine ⟨rfl, rfl, rfl, ?_, fun _ => rfl⟩
  intro address h
  have : address_fields.filterMap (fun part => slookup address part) = [] := by
    rw [List.filterMap_eq_nil_iff]
    exact h
  simp [reverse_geocode, this, joinCommaSp]

/-- C3 witness: a concrete successful response whose address holds only a
postcode resolves to the empty string. -/
theorem c3_place_resolution_witness :
    reverse_geocode (GeoOutcome.success (some (some [("postcode", "1")]))) = "" :=
  c3_place_resolution.2.2.2.1 [("postcode", "1")] (by decide)

/- ## Claim C4 -/

/-- Inversion for `_convert_to_degrees`: a successful conversion can only
come from a three-element rational tuple with non-zero denominators, and
returns exactly deg + min/60 + sec/3600. -/
theorem convert_ok_inv (v : GPSVal) (q : ℚ)
    (h : _convert_to_degrees v = Except.ok q) :
    ∃ d m s, v = GPSVal.rats [d, m, s] ∧ d.2 ≠ 0 ∧ m.2 ≠ 0 ∧ s.2 ≠ 0 ∧
      q = degVal d m s := by
  cases v with
  | ref s => simp [_convert_to_degrees] at h
  | rats l =>
    rcases l with _ | ⟨d, _ | ⟨m, _ | ⟨s, _ | ⟨x, t⟩⟩⟩⟩
    · simp [_convert_to_degrees] at h
    · simp [_convert_to_degrees] at h
    · simp [_convert_to_degrees] at h
    · refine ⟨d, m, s, rfl, ?_⟩
      rw [_convert_to_degrees] at h
      split at h
      · cases h
      · rename_i hcond
        push_neg at hcond
        cases h
        exact ⟨hcond.1, hcond.2.1, hcond.2.2, rfl⟩
    · simp [_convert_to_degrees] at h

/-- `d[k] = ok v` exactly when the key is present with that value. -/
theorem subscript_ok {α : Type} (d : List (Nat × α)) (k : Nat) (v : α) :
    subscript d k = Except.ok v ↔ alookup d k = some v := by
  unfold subscript
  cases alookup d k <;> simp

/-- C4 amended: a coordinate is produced only from a GPS IFD in which the
latitude and the longitude rational triples are both present, have exactly
three components and only non-zero denominators.  (A missing *reference*
character, by contrast, does not block production: it is defaulted to the
positive hemisphere, see the counterexample.) -/
theorem c4_gps_wellformed (exif : ExifDict) (c : ℚ × ℚ)
    (h : get_gps_coords exif = some c) :
    ∃ latT lonT,
      alookup exif.gps GPSIFD.GPSLatitude = some (GPSVal.rats latT) ∧
      alookup exif.gps GPSIFD.GPSLongitude = some (GPSVal.rats lonT) ∧
      latT.length = 3 ∧ lonT.length = 3 ∧
      (∀ p ∈ latT, p.2 ≠ 0) ∧ (∀ p ∈ lonT, p.2 ≠ 0) := by
  simp only [get_gps_coords] at h
  split at h
  · cases h
  · split at h
    case h_2 => cases h
    case h_1 p hg =>
      simp only [gps_try] at hg
      split at hg
      · cases hg
      case h_2 latv hlat =>
        split at hg
        · cases hg
        case h_2 lat0 hclat =>
          split at hg
          · cases hg
          case h_2 lonv hlon =>
            split at hg
            · cases hg
            case h_2 lon0 hclon =>
              obtain ⟨d1, m1, s1, hv1, hd1, hm1, hs1, -⟩ := convert_ok_inv latv lat0 hclat
              obtain ⟨d2, m2, s2, hv2, hd2, hm2, hs2, -⟩ := convert_ok_inv lonv lon0 hclon
              refine ⟨[d1, m1, s1], [d2, m2, s2], ?_, ?_, rfl, rfl, ?_, ?_⟩
              · rw [← hv1]; exact (subscript_ok _ _ _).mp hlat
              · rw [← hv2]; exact (subscript_ok _ _ _).mp hlon
              · intro p hp
                simp only [List.mem_cons, List.not_mem_nil, or_false] at hp
                rcases hp with rfl | rfl | rfl
                · exact hd1
                · exact hm1
                · exact hs1
              · intro p hp
                simp only [List.mem_cons, List.not_mem_nil, or_false] at hp
                rcases hp with rfl | rfl | rfl
                · exact hd2
                · exact hm2
                · exact hs2

/-- A complete concrete GPS IFD with both triples and both references. -/
def c4_full_gps : List (Nat × GPSVal) :=
  [(GPSIFD.GPSLatitude, GPSVal.rats [(40, 1), (0, 1), (0, 1)]),
   (GPSIFD.GPSLatitudeRef, GPSVal.ref "N"),
   (GPSIFD.GPSLongitude, GPSVal.rats [(74, 1), (0, 1), (0, 1)]),
   (GPSIFD.GPSLongitudeRef, GPSVal.ref "W")]

/-- C4 witness: applying the invariant to a concrete complete GPS IFD
that converts to (40, -74). -/
theorem c4_gps_wellformed_witness :
    ∃ latT lonT,
      alookup (ExifDict.mk [] c4_full_gps).gps GPSIFD.GPSLatitude = some (GPSVal.rats latT) ∧
      alookup (ExifDict.mk [] c4_full_gps).gps GPSIFD.GPSLongitude = some (GPSVal.rats lonT) ∧
      latT.length = 3 ∧ lonT.length = 3 ∧
      (∀ p ∈ latT, p.2 ≠ 0) ∧ (∀ p ∈ lonT, p.2 ≠ 0) :=
  c4_gps_wellformed ⟨[], c4_full_gps⟩ (40, -74) (by
    simp [get_gps_coords, gps_try, subscript, alookup, c4_full_gps, _convert_to_degrees,
      GPSIFD.GPSLatitude, GPSIFD.GPSLatitudeRef, GPSIFD.GPSLongitude, GPSIFD.GPSLongitudeRef,
      degVal])

/-- A GPS IFD with both rational triples but no reference characters. -/
def c4_gps_norefs : List (Nat × GPSVal) :=
  [(GPSIFD.GPSLatitude, GPSVal.rats [(40, 1), (0, 1), (0, 1)]),
   (GPSIFD.GPSLongitude, GPSVal.rats [(74, 1), (0, 1), (0, 1)])]

/-- C4 counterexample: the spec claims a GPS dictionary whose reference
character is missing yields no coordinate; the code defaults a missing
latitude reference to b'N' and a missing longitude reference to b'E' with
`dict.get`, and returns a coordinate anyway. -/
theorem c4_missing_ref_counterexample :
    get_gps_coords ⟨[], c4_gps_norefs⟩ = some (40, 74) ∧
    alookup c4_gps_norefs GPSIFD.GPSLatitudeRef = none ∧
    alookup c4_gps_norefs GPSIFD.GPSLongitudeRef = none := by
  refine ⟨?_, by decide, by decide⟩
  simp [get_gps_coords, gps_try, subscript, alookup, c4_gps_norefs, _convert_to_degrees,
    GPSIFD.GPSLatitude, GPSIFD.GPSLatitudeRef, GPSIFD.GPSLongitude, GPSIFD.GPSLongitudeRef,
    degVal]

/- ## Claim C6 -/

/-- A GPS IFD holding a complete quadruple for each axis: reference
characters and rational triples for latitude and longitude. -/
def mkGpsDict (latT : List (Int × Int)) (latRef : String)
    (lonT : List (Int × Int)) (lonRef : String) : List (Nat × GPSVal) :=
  [(GPSIFD.GPSLatitudeRef, GPSVal.ref latRef),
   (GPSIFD.GPSLatitude, GPSVal.rats latT),
   (GPSIFD.GPSLongitudeRef, GPSVal.ref lonRef),
   (GPSIFD.GPSLongitude, GPSVal.rats lonT)]

/-- C6 counterexample: the spec claims the converted coordinate lies in
[-90, 90] for every valid rational quadruple with non-zero denominators;
the code performs no range check, so a latitude triple encoding 200
degrees converts to 200, outside the claimed interval. -/
theorem c6_out_of_range_counterexample :
    get_gps_coords ⟨[], mkGpsDict [(200, 1), (0, 1), (0, 1)] "N"
        [(0, 1), (0, 1), (0, 1)] "E"⟩ = some (200, 0) ∧
    ¬ ((200 : ℚ) ≤ 90) := by
  constructor
  · simp [get_gps_coords, gps_try, subscript, alookup, mkGpsDict, _convert_to_degrees,
      GPSIFD.GPSLatitude, GPSIFD.GPSLatitudeRef, GPSIFD.GPSLongitude, GPSIFD.GPSLongitudeRef,
      degVal]
  · norm_num

/-- C6 amended: for every complete rational quadruple with non-zero
denominators the code returns deg + min/60 + sec/3600 negated exactly when
the reference is not the positive-hemisphere symbol (not-'N' for latitude,
not-'E' for longitude, not an exhaustive match); the result lies in
[-90, 90] (resp. [-180, 180]) only under the additional precondition that
the unsigned magnitude lies in [0, 90] (resp. [0, 180]) — the code checks
no range. -/
theorem c6_sign_and_conditional_range
    (dla mla sla dlo mlo slo : Int × Int) (latRef lonRef : String)
    (h1 : dla.2 ≠ 0) (h2 : mla.2 ≠ 0) (h3 : sla.2 ≠ 0)
    (h4 : dlo.2 ≠ 0) (h5 : mlo.2 ≠ 0) (h6 : slo.2 ≠ 0) :
    get_gps_coords ⟨[], mkGpsDict [dla, mla, sla] latRef [dlo, mlo, slo] lonRef⟩ =
      some ((if latRef = "N" then degVal dla mla sla else -degVal dla mla sla),
            (if lonRef = "E" then degVal dlo mlo slo else -degVal dlo mlo slo)) ∧
    (0 ≤ degVal dla mla sla → degVal dla mla sla ≤ 90 →
      -90 ≤ (if latRef = "N" then degVal dla mla sla else -degVal dla mla sla) ∧
      (if latRef = "N" then degVal dla mla sla else -degVal dla mla sla) ≤ 90) ∧
    (0 ≤ degVal dlo mlo slo → degVal dlo mlo slo ≤ 180 →
      -180 ≤ (if lonRef = "E" then degVal dlo mlo slo else -degVal dlo mlo slo) ∧
      (if lonRef = "E" then degVal dlo mlo slo else -degVal dlo mlo slo) ≤ 180) := by
  refine ⟨?_, ?_, ?_⟩
  · simp only [get_gps_coords, gps_try, subscript, alookup, mkGpsDict, _convert_to_degrees,
      GPSIFD.GPSLatitude, GPSIFD.GPSLatitudeRef, GPSIFD.GPSLongitude, GPSIFD.GPSLongitudeRef,
      h1, h2, h3, h4, h5, h6]
    simp [h1, h2, h3, h4, h5, h6, GPSVal.ref.injEq]
  · intro hlo hhi
    by_cases hN : latRef = "N" <;> simp [hN] <;> constructor <;> linarith
  · intro hlo hhi
    by_cases hE : lonRef = "E" <;> simp [hE] <;> constructor <;> linarith

/-- C6 witness: the quadruple (40,1)(0,1)(0,1) ref 'N' and
(74,1)(0,1)(0,1) ref 'W' converts with sign per the hemisphere rule. -/
theorem c6_sign_and_conditional_range_witness :
    get_gps_coords ⟨[], mkGpsDict [(40, 1), (0, 1), (0, 1)] "N"
        [(74, 1), (0, 1), (0, 1)] "W"⟩ =
      some ((if ("N" : String) = "N" then degVal (40, 1) (0, 1) (0, 1)
               else -degVal (40, 1) (0, 1) (0, 1)),
            (if ("W" : String) = "E" then degVal (74, 1) (0, 1) (0, 1)
               else -degVal (74, 1) (0, 1) (0, 1))) :=
  (c6_sign_and_conditional_range (40, 1) (0, 1) (0, 1) (74, 1) (0, 1) (0, 1) "N" "W"
    (by decide) (by decide) (by decide) (by decide) (by decide) (by decide)).1

/- ## CaptionLayoutEngine: `add_overlay` -/

/-- Layout constant `padding = 10` from `add_overlay`. -/
def padding : Int := 10

/-- Layout constant `shadow_offset = 2` from `add_overlay`. -/
def shadow_offset : Int := 2

/-- The font-metrics collaborator: `font.getbbox(text)` reduced to the
width `bbox[2] - bbox[0]` and height `bbox[3] - bbox[1]` of a string. -/
structure Meas where
  w : String → Int
  h : String → Int

/-- `get_text_size(text)` from `add_overlay`. -/
def get_text_size (m : Meas) (s : String) : Int × Int := (m.w s, m.h s)

/-- One `draw.text` call issued by `add_overlay`. -/
structure DrawCall where
  x : Int
  y : Int
  text : String
  shadow : Bool
deriving DecidableEq

/-- One iteration of the word loop in `wrap_text`: the tentative line is
the current words joined with the candidate word; if its measured width
fits, the word is accumulated, otherwise the current line (when non-empty)
is emitted and the word starts a new line. -/
def wrapStep (m : Meas) (max_width : Int) :
    List String × List String → String → List String × List String
  | (lines, current_line), word =>
    let test_line := joinSp (current_line ++ [word])
    if (get_text_size m test_line).1 ≤ max_width then
      (lines, current_line ++ [word])
    else
      (if current_line.isEmpty then lines else lines ++ [joinSp current_line], [word])

/-- `wrap_text(text, max_width)` from `add_overlay`: greedy word wrap,
with a final flush of the pending current line when non-empty. -/
def wrap_text (m : Meas) (text : String) (max_width : Int) : List String :=
  let st := (pyWords text).foldl (wrapStep m max_width) ([], [])
  if st.2.isEmpty then st.1 else st.1 ++ [joinSp st.2]

/-- The per-line body of the wrapping loop in `add_overlay`: a line with a
colon is split once at the first colon; the stripped content is wrapped
into the usable width minus the measured width of `label + colon-space`;
the label is re-attached to `wrapped[0]` — an `IndexError` when the wrap
produced no lines — and the remaining wrapped sub-lines follow unchanged.
A line without a colon is wrapped whole. -/
def wrap_line (m : Meas) (max_text_width : Int) (line : String) :
    Except PyError (List String) :=
  if containsColon line then
    let label := (splitColon1 line).1
    let content := (splitColon1 line).2
    let label_width := (get_text_size m (label ++ ": ")).1
    match wrap_text m (stripSp content) (max_text_width - label_width) with
    | [] => Except.error PyError.indexError
    | w0 :: rest => Except.ok ((label ++ ":" ++ w0) :: rest)
  else Except.ok (wrap_text m line max_text_width)

/-- The wrapping loop of `add_overlay` over all logical lines, extending
`wrapped_lines` in order. -/
def wrap_lines (m : Meas) (max_text_width : Int) :
    List String → Except PyError (List String)
  | [] => Except.ok []
  | line :: rest =>
    match wrap_line m max_text_width line with
    | Except.error e => Except.error e
    | Except.ok ws =>
      match wrap_lines m max_text_width rest with
      | Except.error e => Except.error e
      | Except.ok rs => Except.ok (ws ++ rs)

/-- The draw loop of `add_overlay`: each wrapped line is drawn twice,
shadow first at `(x + shadow_offset, y + shadow_offset)` and foreground
at `(x, y)`, with `y` advancing by the line's measured height plus
padding. -/
def draw_loop (m : Meas) (x : Int) : Int → List String → List DrawCall
  | _, [] => []
  | y, line :: rest =>
    DrawCall.mk (x + shadow_offset) (y + shadow_offset) line true ::
    DrawCall.mk x y line false ::
    draw_loop m x (y + (get_text_size m line).2 + padding) rest

/-- The outcome of one `add_overlay(image, text, ...)` call: the wrapped
lines, the layout quantities, and the issued draw calls. -/
structure OverlayResult where
  wrapped_lines : List String
  total_text_height : Int
  x : Int
  y : Int
  draws : List DrawCall
deriving DecidableEq

/-- `add_overlay` from `overlay.py`: split the caption at newlines, wrap
each logical line into `max_text_width = width - 4*padding`, sum the
measured line heights plus `padding * (lineCount - 1)`, anchor the block
at the bottom-right, and issue the draw calls.  The `IndexError` from
`wrapped[0]` on an empty wrap propagates out. -/
def add_overlay (m : Meas) (width height : Int) (text : String) :
    Except PyError OverlayResult :=
  let text_lines := splitNl text
  let max_text_width := width - padding * 4
  match wrap_lines m max_text_width text_lines with
  | Except.error e => Except.error e
  | Except.ok wrapped_lines =>
    let tth := (wrapped_lines.map (fun line => (get_text_size m line).2)).sum +
      padding * ((wrapped_lines.length : Int) - 1)
    let x := width - max_text_width - padding
    let y := height - tth - padding * 2
    Except.ok (OverlayResult.mk wrapped_lines tth x y (draw_loop m x y wrapped_lines))

/- ## Claim C7 -/

/-- The invariant of the `wrap_text` word loop: if every word still to be
processed fits the width and the state is well-formed (emitted lines fit,
the current line is empty or fits), the state after folding is still
well-formed. -/
theorem wrap_fold_invariant (m : Meas) (maxw : Int) :
    ∀ (words : List String) (st : List String × List String),
    (∀ w ∈ words, m.w w ≤ maxw) →
    (∀ l ∈ st.1, m.w l ≤ maxw) →
    (st.2 = [] ∨ m.w (joinSp st.2) ≤ maxw) →
    (∀ l ∈ (words.foldl (wrapStep m maxw) st).1, m.w l ≤ maxw) ∧
    ((words.foldl (wrapStep m maxw) st).2 = [] ∨
      m.w (joinSp (words.foldl (wrapStep m maxw) st).2) ≤ maxw) := by
  intro words
  induction words with
  | nil => intro st hws hl hc; exact ⟨hl, hc⟩
  | cons w ws ih =>
    intro st hws hl hc
    rw [List.foldl_cons]
    refine ih (wrapStep m maxw st w) (fun v hv => hws v (List.mem_cons_of_mem w hv)) ?_ ?_
    · intro l hlmem
      rw [wrapStep] at hlmem
      split at hlmem
      · exact hl l hlmem
      · by_cases hemp : st.2.isEmpty
        · simp only [hemp, if_true] at hlmem
          exact hl l hlmem
        · simp only [hemp, if_false] at hlmem
          rcases List.mem_append.mp hlmem with h | h
          · exact hl l h
          · rcases hc with hc | hc
            · rw [hc] at hemp; simp at hemp
            · rw [List.mem_singleton.mp h]; exact hc
    · rw [wrapStep]
      split
      case isTrue htest => right; exact htest
      case isFalse htest =>
        right
        show m.w (joinSp [w]) ≤ maxw
        rw [show joinSp [w] = w from rfl]
        exact hws w (List.mem_cons_self w ws)

/-- Width bound for `wrap_text`: when every word of the input fits the
maximum width, so does every produced line. -/
theorem wrap_text_width_le (m : Meas) (maxw : Int) (text : String)
    (h : ∀ w ∈ pyWords text, m.w w ≤ maxw) :
    ∀ l ∈ wrap_text m text maxw, m.w l ≤ maxw := by
  intro l hl
  rw [wrap_text] at hl
  obtain ⟨hlines, hcur⟩ := wrap_fold_invariant m maxw (pyWords text) ([], [])
    h (by intro x hx; cases hx) (Or.inl rfl)
  split at hl
  · exact hlines l hl
  case isFalse hne =>
    rcases List.mem_append.mp hl with h1 | h1
    · exact hlines l h1
    · rcases hcur with hc | hc
      · rw [hc] at hne; simp at hne
      · rw [List.mem_singleton.mp h1]; exact hc

/-- Emitted lines are preserved by one step of the word loop. -/
theorem wrapStep_mem_lines (m : Meas) (maxw : Int) (st : List String × List String)
    (w l : String) (h : l ∈ st.1) : l ∈ (wrapStep m maxw st w).1 := by
  rw [wrapStep]
  split
  · exact h
  · split
    · exact h
    · exact List.mem_append_left _ h

/-- Processing a word wider than the width always leaves it alone as the
current line, provided the measure of a joined line dominates the measure
of its last word. -/
theorem wrapStep_wide (m : Meas) (maxw : Int)
    (hlast : ∀ c w, m.w w ≤ m.w (joinSp (c ++ [w])))
    (st : List String × List String) (wd : String) (hwide : maxw < m.w wd) :
    (wrapStep m maxw st wd).2 = [wd] := by
  rw [wrapStep]
  split
  case isTrue htest =>
    exfalso
    have := hlast st.2 wd
    simp only [get_text_size] at htest
    omega
  · rfl

/-- Once a too-wide word is the whole current line (or already emitted),
it survives folding the remaining words, provided appending a word never
shrinks the measured width of a joined line. -/
theorem wrap_fold_keeps_wide (m : Meas) (maxw : Int) (wd : String)
    (happ : ∀ c w, m.w (joinSp c) ≤ m.w (joinSp (c ++ [w])))
    (hwide : maxw < m.w wd) :
    ∀ (words : List String) (st : List String × List String),
    (wd ∈ st.1 ∨ st.2 = [wd]) →
    (wd ∈ (words.foldl (wrapStep m maxw) st).1 ∨
      (words.foldl (wrapStep m maxw) st).2 = [wd]) := by
  intro words
  induction words with
  | nil => intro st h; exact h
  | cons v vs ih =>
    intro st h
    rw [List.foldl_cons]
    refine ih (wrapStep m maxw st v) ?_
    rcases h with h | h
    · exact Or.inl (wrapStep_mem_lines m maxw st v wd h)
    · left
      rw [wrapStep]
      split
      case isTrue htest =>
        exfalso
        have hmono := happ st.2 v
        rw [h] at hmono
        simp only [get_text_size] at htest
        rw [h] at htest
        have hw : m.w (joinSp [wd]) = m.w wd := rfl
        omega
      · rw [h]
        simp only [List.isEmpty_cons, if_false]
        refine List.mem_append_right _ ?_
        rw [show joinSp [wd] = wd from rfl]
        exact List.mem_singleton_self wd

/-- A word wider than the maximum width ends up alone as one of the
produced lines (neither hyphenated nor truncated), for any measure under
which joining words never shrinks below a component's width. -/
theorem wrap_text_wide_word (m : Meas) (maxw : Int) (text wd : String)
    (hlast : ∀ c w, m.w w ≤ m.w (joinSp (c ++ [w])))
    (happ : ∀ c w, m.w (joinSp c) ≤ m.w (joinSp (c ++ [w])))
    (hmem : wd ∈ pyWords text) (hwide : maxw < m.w wd) :
    wd ∈ wrap_text m text maxw := by
  obtain ⟨l1, l2, hsplit⟩ := List.append_of_mem hmem
  rw [wrap_text, hsplit, List.foldl_append, List.foldl_cons]
  have hstep : (wrapStep m maxw (l1.foldl (wrapStep m maxw) ([], [])) wd).2 = [wd] :=
    wrapStep_wide m maxw hlast _ wd hwide
  have hkeep := wrap_fold_keeps_wide m maxw wd happ hwide l2
    (wrapStep m maxw (l1.foldl (wrapStep m maxw) ([], [])) wd) (Or.inr hstep)
  rcases hkeep with h | h
  · split
    · exact h
    · exact List.mem_append_left _ h
  · rw [h]
    simp only [List.isEmpty_cons, if_false]
    refine List.mem_append_right _ ?_
    rw [show joinSp [wd] = wd from rfl]
    exact List.mem_singleton_self wd

/-- C7: greedy word-wrapping never produces a line measurably wider than
the usable width when each word individually fits, and a word wider than
the usable width is placed alone on its own line (for measures where a
joined line is at least as wide as its parts, as font metrics are). -/
theorem c7_wrap_width_and_wide_word :
    (∀ (m : Meas) (maxw : Int) (text : String),
      (∀ w ∈ pyWords text, m.w w ≤ maxw) →
      ∀ l ∈ wrap_text m text maxw, m.w l ≤ maxw) ∧
    (∀ (m : Meas) (maxw : Int) (text wd : String),
      (∀ c w, m.w w ≤ m.w (joinSp (c ++ [w]))) →
      (∀ c w, m.w (joinSp c) ≤ m.w (joinSp (c ++ [w]))) →
      wd ∈ pyWords text → maxw < m.w wd →
      wd ∈ wrap_text m text maxw) :=
  ⟨wrap_text_width_le, wrap_text_wide_word⟩

/-- A concrete metrics collaborator: width is the character count, every
line is 40 units tall. -/
def mlen : Meas := Meas.mk (fun s => (s.length : Int)) (fun _ => 40)

/-- The character-count measure of a space-joined line dominates the
measure of its last word. -/
theorem joinSp_len_last (c : List String) (w : String) :
    (w.length : Int) ≤ ((joinSp (c ++ [w])).length : Int) := by
  induction c with
  | nil => simp [joinSp]
  | cons a c ih =>
    cases c with
    | nil =>
      show (w.length : Int) ≤ ((a ++ " " ++ w).length : Int)
      rw [String.length_append, String.length_append]
      push_cast
      omega
    | cons b t =>
      show (w.length : Int) ≤ ((a ++ " " ++ joinSp ((b :: t) ++ [w])).length : Int)
      rw [String.length_append, String.length_append]
      push_cast
      omega

/-- The character-count measure of a space-joined line does not shrink
when a word is appended. -/
theorem joinSp_len_app (c : List String) (w : String) :
    ((joinSp c).length : Int) ≤ ((joinSp (c ++ [w])).length : Int) := by
  induction c with
  | nil => simp [joinSp]
  | cons a c ih =>
    cases c with
    | nil =>
      show ((a : String).length : Int) ≤ ((a ++ " " ++ w).length : Int)
      rw [String.length_append, String.length_append]
      push_cast
      omega
    | cons b t =>
      show ((a ++ " " ++ joinSp (b :: t)).length : Int) ≤
        ((a ++ " " ++ joinSp ((b :: t) ++ [w])).length : Int)
      rw [String.length_append, String.length_append, String.length_append,
        String.length_append]
      push_cast
      omega

/-- C7 witness: with character-count metrics, the wrap of "aa bb cc" into
width 5 stays within width 5, and a 17-character word thrown at width 5
appears alone as a produced line. -/
theorem c7_wrap_width_and_wide_word_witness :
    (∀ l ∈ wrap_text mlen "aa bb cc" 5, mlen.w l ≤ 5) ∧
    "averyverylongword" ∈ wrap_text mlen "x averyverylongword y" 5 :=
  ⟨c7_wrap_width_and_wide_word.1 mlen 5 "aa bb cc" (by decide),
   c7_wrap_width_and_wide_word.2 mlen 5 "x averyverylongword y" "averyverylongword"
     (fun c w => joinSp_len_last c w) (fun c w => joinSp_len_app c w)
     (by decide) (by decide)⟩

/- ## Claim C8 -/

/-- C8: a caption line containing a colon whose content wraps into more
than one sub-line is split once at the first colon; the content is wrapped
into the usable width reduced by the measured width of the label followed
by a colon and space; the label is re-attached only to the first wrapped
sub-line, and the remaining sub-lines pass through unchanged with no label
repeated. -/
theorem c8_label_reattached_once (m : Meas) (maxw : Int)
    (line label content w0 w1 : String) (rest : List String)
    (hcolon : containsColon line = true)
    (hsplit : splitColon1 line = (label, content))
    (hwrap : wrap_text m (stripSp content) (maxw - m.w (label ++ ": ")) =
      w0 :: w1 :: rest) :
    wrap_line m maxw line = Except.ok ((label ++ ":" ++ w0) :: w1 :: rest) := by
  rw [wrap_line, if_pos hcolon, hsplit]
  simp only [get_text_size]
  rw [hwrap]

/-- C8 witness: with character-count metrics and usable width 17, the line
"Location: aaa bbb ccc" wraps its content into width 7, giving two
sub-lines with the label attached only to the first. -/
theorem c8_label_reattached_once_witness :
    wrap_line mlen 17 "Location: aaa bbb ccc" =
      Except.ok (("Location" ++ ":" ++ "aaa bbb") :: "ccc" :: []) :=
  c8_label_reattached_once mlen 17 "Location: aaa bbb ccc" "Location" " aaa bbb ccc"
    "aaa bbb" "ccc" [] (by decide) (by decide) (by decide)

/- ## Claim C9 -/

/-- Each wrapped line issues exactly two draw calls (shadow and
foreground). -/
theorem draw_loop_length (m : Meas) (x : Int) :
    ∀ (y : Int) (lines : List String),
    (draw_loop m x y lines).length = 2 * lines.length := by
  intro y lines
  induction lines generalizing y with
  | nil => rfl
  | cons l rest ih =>
    rw [draw_loop]
    simp only [List.length_cons]
    rw [ih]
    ring

/-- C9 counterexample: the spec claims an empty caption yields a
zero-height block; the code computes `sum of heights + padding * (0 - 1)`
over zero wrapped lines, i.e. a block height of -10, not 0 (the anchor is
still computed and no draw call is issued). -/
theorem c9_empty_caption_counterexample :
    add_overlay mlen 2048 1536 "" =
      Except.ok (OverlayResult.mk [] (-10) 30 1526 []) ∧
    (-10 : Int) ≠ 0 := by
  exact ⟨rfl, by decide⟩

/-- C9 amended: the block height is the sum of the wrapped lines' measured
heights plus `padding * (lineCount - 1)`; the anchor is
`y = imageHeight - totalHeight - 2*padding` and
`x = imageWidth - usableWidth - padding`; each wrapped line issues exactly
two draw calls; and an empty caption yields zero wrapped lines, no draw
calls and a block height of `-padding` (the formula at zero lines — not
zero), with the anchor still computed by the same formula. -/
theorem c9_block_height_and_empty_caption (m : Meas) (width height : Int)
    (text : String) (r : OverlayResult)
    (h : add_overlay m width height text = Except.ok r) :
    r.total_text_height = (r.wrapped_lines.map (fun line => m.h line)).sum +
      padding * ((r.wrapped_lines.length : Int) - 1) ∧
    r.y = height - r.total_text_height - padding * 2 ∧
    r.x = width - (width - padding * 4) - padding ∧
    r.draws.length = 2 * r.wrapped_lines.length ∧
    (text = "" → r.wrapped_lines = [] ∧ r.total_text_height = -padding ∧
      r.draws = []) := by
  rw [add_overlay] at h
  split at h
  · cases h
  case h_2 wl heq =>
    cases h
    refine ⟨by simp [get_text_size], rfl, rfl, draw_loop_length m _ _ _, ?_⟩
    intro htext
    subst htext
    have hempty : wrap_lines m (width - padding * 4) (splitNl "") = Except.ok [] := by
      show wrap_lines m (width - padding * 4) [""] = Except.ok []
      rw [wrap_lines, wrap_line]
      rfl
    rw [hempty] at heq
    cases heq
    refine ⟨rfl, ?_, rfl⟩
    show (List.map (fun line => (get_text_size m line).2) []).sum +
      padding * (((List.length ([] : List String)) : Int) - 1) = -padding
    simp

/-- The empty-caption layout outcome at the concrete metrics `mlen`. -/
def c9_empty_layout : OverlayResult := OverlayResult.mk [] (-10) 30 1526 []

/-- C9 witness: applying the layout theorem to the empty caption on a
2048 x 1536 canvas with the concrete metrics `mlen`. -/
theorem c9_block_height_and_empty_caption_witness :
    c9_empty_layout.wrapped_lines = [] ∧
    c9_empty_layout.total_text_height = -padding ∧
    c9_empty_layout.draws = [] :=
  (c9_block_height_and_empty_caption mlen 2048 1536 "" c9_empty_layout rfl).2.2.2.2 rfl

/- ## Claim C10 -/

/-- `str.split()` yields no words exactly when every character is a
space (given the state starts with no pending word). -/
theorem wordsAux_eq_nil (l : List Char) :
    ∀ cur, (wordsAux l cur = [] ↔ cur = [] ∧ ∀ c ∈ l, c = ' ') := by
  induction l with
  | nil =>
    intro cur
    rw [wordsAux]
    cases cur with
    | nil => simp
    | cons c cs => simp
  | cons c cs ih =>
    intro cur
    rw [wordsAux]
    by_cases hc : c = ' '
    · rw [if_pos hc]
      cases cur with
      | nil =>
        simp only [List.isEmpty_nil, if_true, ih]
        simp [hc]
      | cons a rest =>
        simp only [List.isEmpty_cons, if_false]
        simp
    · rw [if_neg hc]
      rw [ih]
      simp [hc]

/-- `pyWords s = []` exactly when `s` is all spaces. -/
theorem pyWords_eq_nil (s : String) :
    pyWords s = [] ↔ ∀ c ∈ s.toList, c = ' ' := by
  rw [pyWords, wordsAux_eq_nil]
  simp

/-- Dropping leading spaces yields `[]` iff everything is a space. -/
theorem dropSp_eq_nil (l : List Char) :
    dropSp l = [] ↔ ∀ c ∈ l, c = ' ' := by
  induction l with
  | nil => simp [dropSp]
  | cons c cs ih =>
    rw [dropSp]
    by_cases hc : c = ' '
    · rw [if_pos hc, ih]
      simp [hc]
    · rw [if_neg hc]
      simp [hc]

/-- If what remains after dropping leading spaces is all spaces, nothing
remained at all. -/
theorem dropSp_all_spaces (l : List Char)
    (h : ∀ c ∈ dropSp l, c = ' ') : dropSp l = [] := by
  induction l with
  | nil => rfl
  | cons c cs ih =>
    rw [dropSp] at h ⊢
    by_cases hc : c = ' '
    · rw [if_pos hc] at h ⊢
      exact ih h
    · rw [if_neg hc] at h
      exact absurd (h c (List.mem_cons_self c cs)) hc

/-- `str.strip()` yields the empty character list exactly when the input
is all spaces. -/
theorem stripChars_eq_nil (l : List Char) :
    stripChars l = [] ↔ ∀ c ∈ l, c = ' ' := by
  rw [stripChars, List.reverse_eq_nil_iff]
  constructor
  · intro h
    have h1 : ∀ c ∈ (dropSp l).reverse, c = ' ' := (dropSp_eq_nil _).mp h
    have h2 : ∀ c ∈ dropSp l, c = ' ' := fun c hc => h1 c (List.mem_reverse.mpr hc)
    exact (dropSp_eq_nil l).mp (dropSp_all_spaces l h2)
  · intro h
    rw [(dropSp_eq_nil l).mpr h]
    rfl

/-- A stripped list that is all spaces is empty. -/
theorem stripChars_all_spaces (l : List Char)
    (h : ∀ c ∈ stripChars l, c = ' ') : stripChars l = [] := by
  rw [stripChars] at h ⊢
  rw [List.reverse_eq_nil_iff]
  apply dropSp_all_spaces
  intro c hc
  exact h c (List.mem_reverse.mpr hc)

/-- `stripSp s` is the empty string exactly when `s` is all spaces. -/
theorem stripSp_eq_empty (s : String) :
    stripSp s = "" ↔ ∀ c ∈ s.toList, c = ' ' := by
  constructor
  · intro h
    have hd : stripChars s.toList = [] := congrArg String.data h
    exact (stripChars_eq_nil _).mp hd
  · intro h
    show String.mk (stripChars s.toList) = ""
    rw [(stripChars_eq_nil _).mpr h]

/-- The current line is never empty after one step of the word loop. -/
theorem wrapStep_current_ne_nil (m : Meas) (maxw : Int)
    (st : List String × List String) (w : String) :
    (wrapStep m maxw st w).2 ≠ [] := by
  rw [wrapStep]
  split
  · exact fun h => absurd (List.append_eq_nil.mp h).2 (by simp)
  · exact fun h => absurd h (by simp)

/-- After folding at least one word, the current line is non-empty. -/
theorem wrap_fold_current_ne_nil (m : Meas) (maxw : Int) :
    ∀ (words : List String) (st : List String × List String), words ≠ [] →
    ((words.foldl (wrapStep m maxw) st).2) ≠ [] := by
  intro words
  induction words with
  | nil => intro st h; exact absurd rfl h
  | cons w ws ih =>
    intro st _
    rw [List.foldl_cons]
    cases ws with
    | nil => exact wrapStep_current_ne_nil m maxw st w
    | cons v vs => exact ih (wrapStep m maxw st w) (by simp)

/-- `wrap_text` yields no lines exactly when the text has no words. -/
theorem wrap_text_eq_nil (m : Meas) (text : String) (maxw : Int) :
    wrap_text m text maxw = [] ↔ pyWords text = [] := by
  constructor
  · intro h
    by_contra hw
    rw [wrap_text] at h
    have hcur := wrap_fold_current_ne_nil m maxw (pyWords text) ([], []) hw
    rw [if_neg (by simpa using hcur)] at h
    exact absurd (List.append_eq_nil.mp h).2 (by simp)
  · intro h
    rw [wrap_text, h]
    rfl

/-- A line whose colon-split content is non-whitespace wraps successfully
(and a line without a colon always does). -/
theorem wrap_line_ok (m : Meas) (maxw : Int) (line : String)
    (h : containsColon line = true → stripSp (splitColon1 line).2 ≠ "") :
    ∃ ls, wrap_line m maxw line = Except.ok ls := by
  by_cases hc : containsColon line
  · have hne : stripSp (splitColon1 line).2 ≠ "" := h hc
    have hwords : pyWords (stripSp (splitColon1 line).2) ≠ [] := by
      intro hnil
      apply hne
      have h1 : ∀ c ∈ stripChars (splitColon1 line).2.toList, c = ' ' :=
        (pyWords_eq_nil _).mp hnil
      show String.mk (stripChars (splitColon1 line).2.toList) = ""
      rw [stripChars_all_spaces _ h1]
    cases hw : wrap_text m (stripSp (splitColon1 line).2)
        (maxw - m.w ((splitColon1 line).1 ++ ": ")) with
    | nil => exact absurd ((wrap_text_eq_nil _ _ _).mp hw) hwords
    | cons w0 rest =>
      refine ⟨((splitColon1 line).1 ++ ":" ++ w0) :: rest, ?_⟩
      rw [wrap_line, if_pos hc]
      simp only [get_text_size]
      rw [hw]
  · refine ⟨wrap_text m line maxw, ?_⟩
    rw [wrap_line, if_neg hc]

/-- A colon line whose stripped content is empty raises `IndexError` from
`wrapped[0]`. -/
theorem wrap_line_err (m : Meas) (maxw : Int) (line : String)
    (hc : containsColon line = true)
    (he : stripSp (splitColon1 line).2 = "") :
    wrap_line m maxw line = Except.error PyError.indexError := by
  rw [wrap_line, if_pos hc]
  simp only [get_text_size]
  rw [he]
  rfl

/-- The only exception `wrap_line` can raise is `IndexError`. -/
theorem wrap_line_error_eq (m : Meas) (maxw : Int) (line : String)
    (e : PyError) (h : wrap_line m maxw line = Except.error e) :
    e = PyError.indexError := by
  rw [wrap_line] at h
  split at h
  · simp only [get_text_size] at h
    split at h
    · cases h; rfl
    · cases h
  · cases h

/-- When every colon line has non-whitespace content, the whole wrapping
loop succeeds. -/
theorem wrap_lines_ok (m : Meas) (maxw : Int) :
    ∀ lines : List String,
    (∀ line ∈ lines, containsColon line = true → stripSp (splitColon1 line).2 ≠ "") →
    ∃ ls, wrap_lines m maxw lines = Except.ok ls := by
  intro lines
  induction lines with
  | nil => intro _; exact ⟨[], rfl⟩
  | cons l rest ih =>
    intro h
    obtain ⟨ws, hws⟩ := wrap_line_ok m maxw l (h l (List.mem_cons_self l rest))
    obtain ⟨rs, hrs⟩ := ih (fun line hm => h line (List.mem_cons_of_mem l hm))
    refine ⟨ws ++ rs, ?_⟩
    rw [wrap_lines, hws, hrs]

/-- A single colon line with whitespace-only content makes the whole
wrapping loop raise `IndexError`. -/
theorem wrap_lines_err (m : Meas) (maxw : Int) :
    ∀ (lines : List String) (line : String), line ∈ lines →
    containsColon line = true → stripSp (splitColon1 line).2 = "" →
    wrap_lines m maxw lines = Except.error PyError.indexError := by
  intro lines
  induction lines with
  | nil => intro line hm; cases hm
  | cons l rest ih =>
    intro line hm hc he
    rcases List.mem_cons.mp hm with rfl | hm2
    · rw [wrap_lines, wrap_line_err m maxw line hc he]
    · rw [wrap_lines]
      cases hwl : wrap_line m maxw l with
      | error e => rw [wrap_line_error_eq m maxw l e hwl]
      | ok ws => rw [ih line hm2 hc he]

/-- Success of `add_overlay` under the colon-content precondition. -/
theorem add_overlay_ok (m : Meas) (width height : Int) (text : String)
    (h : ∀ line ∈ splitNl text, containsColon line = true →
      stripSp (splitColon1 line).2 ≠ "") :
    (add_overlay m width height text).isOk = true := by
  obtain ⟨ls, hls⟩ := wrap_lines_ok m (width - padding * 4) (splitNl text) h
  rw [add_overlay, hls]
  rfl

/-- Failure of `add_overlay` in the presence of a whitespace-content colon
line. -/
theorem add_overlay_err (m : Meas) (width height : Int) (text line : String)
    (hmem : line ∈ splitNl text) (hc : containsColon line = true)
    (he : stripSp (splitColon1 line).2 = "") :
    add_overlay m width height text = Except.error PyError.indexError := by
  rw [add_overlay, wrap_lines_err m (width - padding * 4) (splitNl text) line hmem hc he]

/- ## The caption built by `process_image` -/

/-- The f-string caption of `process_image`: a date line, a coordinate
line (spelt "Lattitude" in the source) and a location line, separated by
newlines; `coordsS` stands for Python's text rendering of the coords
value. -/
def caption_text (date coordsS location : String) : String :=
  "Date and Time: " ++ date ++ "\n" ++ "Lattitude, Longitude: " ++ coordsS ++ "\n" ++
    "Location: " ++ location

/-- C10: the caption layout is total exactly under the precondition that
every logical line containing a colon has non-whitespace content after its
first colon: such captions lay out normally; a caption with a colon line
whose content strips to nothing makes `wrap_text` return no lines, so the
label re-attachment `wrapped[0]` raises `IndexError` — and the caption
built by `process_image` from an empty location string (the value
`reverse_geocode` returns when it joins zero address fields) is exactly
such an input, for every metrics collaborator and canvas. -/
theorem c10_colon_content_totality :
    (∀ (m : Meas) (width height : Int) (text : String),
      (∀ line ∈ splitNl text, containsColon line = true →
        stripSp (splitColon1 line).2 ≠ "") →
      (add_overlay m width height text).isOk = true) ∧
    (∀ (m : Meas) (width height : Int) (text line : String),
      line ∈ splitNl text → containsColon line = true →
      stripSp (splitColon1 line).2 = "" →
      add_overlay m width height text = Except.error PyError.indexError) ∧
    (∀ (m : Meas) (width height : Int),
      add_overlay m width height (caption_text "Unknown Date" "None" "") =
        Except.error PyError.indexError) := by
  refine ⟨add_overlay_ok, add_overlay_err, ?_⟩
  intro m width height
  exact add_overlay_err m width height _ "Location: " (by decide) (by decide) (by decide)

/-- C10 witness: with the concrete metrics `mlen` on an 800 x 600 canvas,
a fully populated caption lays out successfully, while the caption built
from an empty location raises `IndexError`. -/
theorem c10_colon_content_totality_witness :
    (add_overlay mlen 800 600
      (caption_text "2022:01:01 10:00:00" "None" "Paris, France")).isOk = true ∧
    add_overlay mlen 800 600 (caption_text "Unknown Date" "None" "") =
      Except.error PyError.indexError :=
  ⟨c10_colon_content_totality.1 mlen 800 600 _ (by decide),
   c10_colon_content_totality.2.2 mlen 800 600⟩

/- ## BatchPipeline: `process_image` and `main` -/

/-- Configuration constant `MAX_WIDTH = 2048`. -/
def MAX_WIDTH : Int := 2048

/-- The fixed supported-extension set. -/
def SUPPORTED_EXTENSIONS : List String :=
  [".jpg", ".jpeg", ".png", ".tiff", ".bmp", ".gif"]

/-- `file.lower().endswith(SUPPORTED_EXTENSIONS)` from `main`. -/
def has_supported_extension (name : String) : Bool :=
  SUPPORTED_EXTENSIONS.any (fun ext => pyEndsWith (pyLower name) ext)

/-- Python's text rendering of a float, modelled by the exact rational in
numerator/denominator form; only its shape matters downstream. -/
def qRepr (q : ℚ) : String := toString q.num ++ "/" ++ toString q.den

/-- `str()` of the coords value interpolated into the caption: `None` or
a parenthesised pair. -/
def coordsRepr : Option (ℚ × ℚ) → String
  | none => "None"
  | some (a, b) => "(" ++ qRepr a ++ ", " ++ qRepr b ++ ")"

/-- The resize step of `process_image`: a width beyond `MAX_WIDTH` is
downscaled preserving aspect ratio, `int(height * ratio)` modelled by
integer division (which truncates identically for the positive dimensions
involved). -/
def resize_dims (w h : Int) : Int × Int :=
  if MAX_WIDTH < w then (MAX_WIDTH, h * MAX_WIDTH / w) else (w, h)

/-- The per-file behaviour of the external collaborators during one
`process_image` call: the parsed EXIF (`none` when `piexif.load` raised
and `get_exif_data` returned `None`), the geocoding outcome, the opened
image's dimensions (`none` when `Image.open` raises inside the `try`),
and whether the final save succeeds. -/
structure FileSpec where
  name : String
  exif : Option ExifDict
  geo : GeoOutcome
  img : Option (Int × Int)
  saveOk : Bool

/-- Terminal status of one job. -/
inductive JobResult where
  | skipped
  | failed
  | saved
deriving DecidableEq

/-- `process_image` from `overlay.py`.  Unreadable EXIF skips the job;
`get_date`, `get_gps_coords` and `reverse_geocode` run OUTSIDE any
handler, so an exception from `get_date` escapes `process_image`; the
image open/resize/overlay/save block runs inside `try`, so its failures
(including the overlay `IndexError`) only mark the job failed. -/
def process_image (m : Meas) (f : FileSpec) : Except PyError JobResult :=
  match f.exif with
  | none => Except.ok JobResult.skipped
  | some exif_data =>
    match get_date exif_data with
    | Except.error e => Except.error e
    | Except.ok date =>
      let coords := get_gps_coords exif_data
      let location :=
        if coords.isSome then reverse_geocode f.geo else "Unknown Location"
      let text := caption_text date (coordsRepr coords) location
      match f.img with
      | none => Except.ok JobResult.failed
      | some wh =>
        let wh2 := resize_dims wh.1 wh.2
        match add_overlay m wh2.1 wh2.2 text with
        | Except.error _ => Except.ok JobResult.failed
        | Except.ok _ =>
          Except.ok (if f.saveOk then JobResult.saved else JobResult.failed)

/-- The walk of `main` over candidate files: unsupported extensions are
filtered out, each remaining file is processed strictly in order, and —
`main` having no per-file handler — an exception escaping `process_image`
aborts the whole run. -/
def run_files (m : Meas) : List FileSpec → Except PyError (List JobResult)
  | [] => Except.ok []
  | f :: fs =>
    if has_supported_extension f.name then
      match process_image m f with
      | Except.error e => Except.error e
      | Except.ok r =>
        match run_files m fs with
        | Except.error e => Except.error e
        | Except.ok rs => Except.ok (r :: rs)
    else run_files m fs

/- ## Claim C2 -/

/-- A candidate file whose EXIF parses but whose `Exif` IFD lacks
`DateTimeOriginal`: its `get_date` raises `AttributeError`. -/
def c2_bad_file : FileSpec :=
  FileSpec.mk "a.jpg" (some (ExifDict.mk [] [])) GeoOutcome.failure
    (some (800, 600)) true

/-- A fully valid candidate file that would save successfully. -/
def c2_good_file : FileSpec :=
  FileSpec.mk "b.jpg" (some (ExifDict.mk [(36867, "2022:01:01 10:00:00")] []))
    GeoOutcome.failure (some (800, 600)) true

/-- C2: the spec claims one bad file only fails its own job and a later
valid file still produces output.  In the code the timestamp stage runs
outside every handler: a first file whose EXIF lacks `DateTimeOriginal`
raises `AttributeError` out of `process_image` and aborts the entire run
before the second file is touched — even though, processed alone, that
second file saves successfully. -/
theorem c2_batch_aborts_on_first_bad_file :
    run_files mlen [c2_bad_file, c2_good_file] =
      Except.error PyError.attributeError ∧
    process_image mlen c2_good_file = Except.ok JobResult.saved := by
  exact ⟨rfl, rfl⟩
